import Mathlib

/-!
Shallow embedding of `backend.py`, a small Flask HTTP gateway with six
endpoints (health, token price, wallet tokens, telegram send, config
exposure, webhook ingestion).  JSON values are modelled by `JVal`,
Python truthiness and the relevant `dict`/`list` operations (including
the exceptions they raise) are modelled explicitly, and each Flask
handler becomes a Lean function from the request data, the configuration
snapshot and the (hypothetical) upstream outcome to an HTTP response
together with a flag recording whether the upstream call was reached.
-/

namespace Backend

/-- JSON values, as produced by `response.json()` / `request.get_json()`. -/
inductive JVal where
  | null : JVal
  | bool : Bool → JVal
  | num  : Rat → JVal
  | str  : String → JVal
  | arr  : List JVal → JVal
  | obj  : List (String × JVal) → JVal

/-- Python truthiness of a JSON value (`bool(v)`): `None`, `False`, `0`,
`""`, `[]` and `{}` are falsy, everything else is truthy. -/
def pyTruthy : JVal → Bool
  | .null => false
  | .bool b => b
  | .num q => q ≠ 0
  | .str s => s ≠ ""
  | .arr l => !l.isEmpty
  | .obj l => !l.isEmpty

/-- Truthiness of an optional string (an environment variable or request
parameter): `None` and the empty string are falsy. -/
def truthyStr : Option String → Bool
  | none => false
  | some s => s ≠ ""

/-- Association-list lookup, modelling Python `dict` key access
(insertion order, first match). -/
def jlookup : List (String × JVal) → String → Option JVal
  | [], _ => none
  | (k, v) :: rest, key => if k = key then some v else jlookup rest key

/-- Python type name of a JSON value, used in exception messages. -/
def pyTypeName : JVal → String
  | .null => "NoneType"
  | .bool _ => "bool"
  | .num _ => "int"
  | .str _ => "str"
  | .arr _ => "list"
  | .obj _ => "dict"

/-- Python `v.get(key, dflt)`: association lookup on a dict; on any
non-dict value (in particular a list) it raises `AttributeError`. -/
def pyGetD (v : JVal) (key : String) (dflt : JVal) : Except String JVal :=
  match v with
  | .obj l => .ok ((jlookup l key).getD dflt)
  | v => .error ("AttributeError: " ++ pyTypeName v ++ " object has no attribute get")

/-- Python `v[key]` for a string key: dict lookup (raising `KeyError`
when absent), `TypeError` on lists, strings and scalars. -/
def pySubscript (v : JVal) (key : String) : Except String JVal :=
  match v with
  | .obj l =>
    match jlookup l key with
    | some x => .ok x
    | none => .error ("KeyError: " ++ key)
  | .arr _ => .error "TypeError: list indices must be integers or slices, not str"
  | .str _ => .error "TypeError: string indices must be integers"
  | v => .error ("TypeError: " ++ pyTypeName v ++ " object is not subscriptable")

/-- Substring test on strings, for Python `needle in hay`. -/
def pyStrContainsSub (hay needle : String) : Bool :=
  needle = "" || (hay.splitOn needle).length > 1

/-- Python `key in v` for a string `key`: key membership on dicts, value
membership on lists (where `key == elem` holds only for an equal string
element), substring test on strings, and `TypeError` on scalars. -/
def pyContainsKey (key : String) (v : JVal) : Except String Bool :=
  match v with
  | .obj l => .ok (jlookup l key).isSome
  | .arr l => .ok (l.any fun x => match x with | .str s => s = key | _ => false)
  | .str s => .ok (pyStrContainsSub s key)
  | v => .error ("TypeError: argument of type " ++ pyTypeName v ++ " is not iterable")

/-- Python iteration `for x in v`: a list yields its elements, a dict
its keys, a string its characters; scalars raise `TypeError`. -/
def pyIter (v : JVal) : Except String (List JVal) :=
  match v with
  | .arr l => .ok l
  | .obj l => .ok (l.map fun p => JVal.str p.1)
  | .str s => .ok (s.data.map fun c => JVal.str c.toString)
  | v => .error ("TypeError: " ++ pyTypeName v ++ " object is not iterable")

/-- Python `x == True`: true for the boolean `True` and, by Python's
numeric equality `1 == True`, also for the number 1. -/
def pyEqTrue : JVal → Bool
  | .bool b => b
  | .num q => q = 1
  | _ => false

/-- The comprehension
`[token for token in tokens if token.get('verified_contract') == True]`
over an already-extracted element list: evaluated left to right, raising
`AttributeError` at the first element that is not a dict. -/
def filterVerified : List JVal → Except String (List JVal)
  | [] => .ok []
  | t :: rest => do
    let v ← pyGetD t "verified_contract" .null
    let tail ← filterVerified rest
    if pyEqTrue v then pure (t :: tail) else pure tail

/-- Outcome of the single outbound `requests.get`/`requests.post` call:
either a completed HTTP exchange carrying the upstream status code and
parsed JSON body, or a raised exception (transport failure) carrying
its rendered message `str(e)`. -/
inductive UpOutcome where
  | ok (code : Nat) (body : JVal)
  | exn (msg : String)

/-- An HTTP response produced by a handler: status code plus JSON body. -/
structure HttpResponse where
  status : Nat
  body : JVal

/-- The configuration snapshot read from the environment at startup
(`os.getenv` returns `None` for an unset variable). -/
structure Config where
  moralis_api_key : Option String
  coingecko_api_key : Option String
  telegram_bot_token : Option String
  telegram_chat_id : Option String
  usdt_address : Option String
  spender_address : Option String

/-- `jsonify({"error": msg})`. -/
def jerror (msg : String) : JVal := .obj [("error", .str msg)]

/-- `jsonify` of an optional string: `None` renders as JSON `null`. -/
def optStr : Option String → JVal
  | none => .null
  | some s => .str s

/-- Python `s.lower()` (character-wise lowercasing; the inputs of
interest are ASCII hex addresses, on which Python's and Lean's
per-character lowercase agree). -/
def pyLower (s : String) : String := ⟨s.data.map Char.toLower⟩

/-- `/health` (`health_check`, backend.py lines 22-25): always 200 with
`status` and the current `datetime.now().isoformat()` string, which is
passed in as the parameter `now`. -/
def health_check (now : String) : HttpResponse :=
  ⟨200, .obj [("status", .str "healthy"), ("timestamp", .str now)]⟩

/-- Body of the `try` block of `get_token_price` after a 200 upstream
response (backend.py lines 49-51):
`data.get(token_address.lower(), {})` then `.get('usd', 0)`. -/
def tokenPriceTry (ta : String) (body : JVal) : Except String JVal := do
  let tokenData ← pyGetD body (pyLower ta) (.obj [])
  pyGetD tokenData "usd" (.num 0)

/-- `/api/token-price` (`get_token_price`, backend.py lines 27-57).
Returns the HTTP response together with a flag recording whether the
outbound upstream call was made. -/
def get_token_price (cfg : Config) (token_address : Option String) (up : UpOutcome) :
    HttpResponse × Bool :=
  match token_address with
  | none => (⟨400, jerror "token_address parameter is required"⟩, false)
  | some ta =>
    if ta = "" then (⟨400, jerror "token_address parameter is required"⟩, false)
    else if ! truthyStr cfg.coingecko_api_key then
      (⟨500, jerror "CoinGecko API key not configured"⟩, false)
    else
      match up with
      | .exn msg => (⟨500, jerror msg⟩, true)
      | .ok code body =>
        if code = 200 then
          match tokenPriceTry ta body with
          | .ok price => (⟨200, .obj [("price", price), ("token_address", .str ta)]⟩, true)
          | .error e => (⟨500, jerror e⟩, true)
        else
          (⟨500, .obj [("error", .str "Failed to fetch price"),
                       ("status_code", .num (code : Rat))]⟩, true)

/-- Body of the `try` block of `get_wallet_tokens` after a 200 upstream
response (backend.py lines 84-88): `data.get('result', data)` followed
by the verified-contract list comprehension. -/
def walletTokensTry (body : JVal) : Except String (List JVal) := do
  let tokens ← pyGetD body "result" body
  let elems ← pyIter tokens
  filterVerified elems

/-- `/api/wallet-tokens` (`get_wallet_tokens`, backend.py lines 59-99).
Returns the HTTP response together with a flag recording whether the
outbound upstream call was made. -/
def get_wallet_tokens (cfg : Config) (address : Option String) (up : UpOutcome) :
    HttpResponse × Bool :=
  match address with
  | none => (⟨400, jerror "address parameter is required"⟩, false)
  | some a =>
    if a = "" then (⟨400, jerror "address parameter is required"⟩, false)
    else if ! truthyStr cfg.moralis_api_key then
      (⟨500, jerror "Moralis API key not configured"⟩, false)
    else
      match up with
      | .exn msg => (⟨500, jerror msg⟩, true)
      | .ok code body =>
        if code = 200 then
          match walletTokensTry body with
          | .ok verified =>
            (⟨200, .obj [("tokens", .arr verified), ("address", .str a),
                         ("total_tokens", .num (verified.length : Rat))]⟩, true)
          | .error e => (⟨500, jerror e⟩, true)
        else
          (⟨500, .obj [("error", .str "Failed to fetch wallet tokens"),
                       ("status_code", .num (code : Rat))]⟩, true)

/-- `/api/send-telegram` (`send_telegram`, backend.py lines 101-128).
The membership test `'message' not in data` happens outside any `try`,
so a `TypeError` there propagates to the router's 500 handler
(backend.py lines 161-163), which returns a generic JSON error.
`data['message']` is evaluated while building the payload, before the
outbound call.  Returns the HTTP response together with a flag
recording whether the outbound upstream call was made. -/
def send_telegram (cfg : Config) (data : Option JVal) (up : UpOutcome) :
    HttpResponse × Bool :=
  match data with
  | none => (⟨400, jerror "message is required"⟩, false)
  | some d =>
    if ! pyTruthy d then (⟨400, jerror "message is required"⟩, false)
    else
      match pyContainsKey "message" d with
      | .error _ => (⟨500, jerror "Internal server error"⟩, false)
      | .ok hasMsg =>
        if ! hasMsg then (⟨400, jerror "message is required"⟩, false)
        else if ! (truthyStr cfg.telegram_bot_token && truthyStr cfg.telegram_chat_id) then
          (⟨500, jerror "Telegram credentials not configured"⟩, false)
        else
          match pySubscript d "message" with
          | .error e => (⟨500, jerror e⟩, false)
          | .ok _ =>
            match up with
            | .exn msg => (⟨500, jerror msg⟩, true)
            | .ok code _ =>
              if code = 200 then
                (⟨200, .obj [("success", .bool true),
                             ("message", .str "Message sent successfully")]⟩, true)
              else
                (⟨500, .obj [("error", .str "Failed to send message"),
                             ("status_code", .num (code : Rat))]⟩, true)

/-- `/api/config` (`get_config`, backend.py lines 130-139): the two
address values plus `bool(...)` presence flags; `bool(a and b)` for the
Telegram pair is the conjunction of the two truthiness tests. -/
def get_config (cfg : Config) : HttpResponse :=
  ⟨200, .obj [
    ("usdt_address", optStr cfg.usdt_address),
    ("spender_address", optStr cfg.spender_address),
    ("has_moralis_key", .bool (truthyStr cfg.moralis_api_key)),
    ("has_coingecko_key", .bool (truthyStr cfg.coingecko_api_key)),
    ("has_telegram_config",
      .bool (truthyStr cfg.telegram_bot_token && truthyStr cfg.telegram_chat_id))]⟩

/-- `/webhook` (`webhook`, backend.py lines 141-155).  The second
component is the payload passed to the logging `print` (some payload
when the request is accepted, none when rejected). -/
def webhook (data : Option JVal) : HttpResponse × Option JVal :=
  match data with
  | none => (⟨400, jerror "No data provided"⟩, none)
  | some d =>
    if ! pyTruthy d then (⟨400, jerror "No data provided"⟩, none)
    else (⟨200, .obj [("success", .bool true),
                      ("message", .str "Webhook processed successfully")]⟩, some d)

/-- Field access in a JSON object response body. -/
def bodyField (r : HttpResponse) (k : String) : Option JVal :=
  match r.body with
  | .obj l => jlookup l k
  | _ => none

/-- The keys of a JSON object, in order. -/
def jsonKeys : JVal → List String
  | .obj l => l.map Prod.fst
  | _ => []

/-- The request condition under which `send_telegram` answers 400:
`not data or 'message' not in data`, restricted to the paths where the
membership test does not itself raise. -/
def missingMessage (data : Option JVal) : Bool :=
  match data with
  | none => true
  | some d =>
    !pyTruthy d ||
      (match pyContainsKey "message" d with
       | .ok b => !b
       | .error _ => false)

/-- The price extraction described by the spec: look the response up
under the lower-cased token address and take its `usd` entry,
defaulting to 0 when the address key or the price is absent.  (A
spec-side definition, used to compare the handler against the claim.) -/
def specPrice (entries : List (String × JVal)) (ta : String) : JVal :=
  match jlookup entries (pyLower ta) with
  | some (.obj td) => (jlookup td "usd").getD (.num 0)
  | some _ => .num 0
  | none => .num 0

/-- Guard for `specPrice`: the entry under the lower-cased address, when
present, is an object (as the pricing upstream produces). -/
def priceShapeOk (entries : List (String × JVal)) (ta : String) : Bool :=
  match jlookup entries (pyLower ta) with
  | some (.obj _) => true
  | some _ => false
  | none => true

/-- A configuration with every variable set to a non-empty value. -/
def cfgFull : Config :=
  ⟨some "mk", some "cg", some "tok", some "chat", some "0xUSDT", some "0xSPENDER"⟩

/-- Like `cfgFull` but with a second set of secret values. -/
def cfgOther : Config :=
  ⟨some "mk2", some "cg2", some "tok2", some "chat2", some "0xUSDT", some "0xSPENDER"⟩

/-- Like `cfgFull` but with the Moralis key set to the empty string. -/
def cfgEmptyMoralis : Config :=
  ⟨some "", some "cg", some "tok", some "chat", some "0xUSDT", some "0xSPENDER"⟩

/-- A configuration with no variable set. -/
def cfgNone : Config := ⟨none, none, none, none, none, none⟩

/-- A token entry flagged verified. -/
def tokVerified : JVal := .obj [("verified_contract", .bool true)]

/-- A token entry flagged unverified. -/
def tokUnverified : JVal := .obj [("verified_contract", .bool false)]

lemma truthyStr_eq_false {p : Option String} (h : truthyStr p = false) :
    p = none ∨ p = some "" := by
  match p with
  | none => exact Or.inl rfl
  | some s =>
    simp only [truthyStr, ne_eq, decide_not, Bool.not_eq_false', decide_eq_true_eq] at h
    exact Or.inr (by rw [h])

lemma get_token_price_param_missing (cfg : Config) (p : Option String) (up : UpOutcome)
    (h : truthyStr p = false) :
    get_token_price cfg p up = (⟨400, jerror "token_address parameter is required"⟩, false) := by
  rcases truthyStr_eq_false h with h | h <;> subst h <;> rfl

lemma get_token_price_key_missing (cfg : Config) (ta : String) (up : UpOutcome)
    (h1 : ta ≠ "") (h2 : truthyStr cfg.coingecko_api_key = false) :
    get_token_price cfg (some ta) up = (⟨500, jerror "CoinGecko API key not configured"⟩, false) := by
  simp [get_token_price, h1, h2]

lemma get_wallet_tokens_param_missing (cfg : Config) (p : Option String) (up : UpOutcome)
    (h : truthyStr p = false) :
    get_wallet_tokens cfg p up = (⟨400, jerror "address parameter is required"⟩, false) := by
  rcases truthyStr_eq_false h with h | h <;> subst h <;> rfl

lemma get_wallet_tokens_key_missing (cfg : Config) (a : String) (up : UpOutcome)
    (h1 : a ≠ "") (h2 : truthyStr cfg.moralis_api_key = false) :
    get_wallet_tokens cfg (some a) up = (⟨500, jerror "Moralis API key not configured"⟩, false) := by
  simp [get_wallet_tokens, h1, h2]

lemma send_telegram_missing_message (cfg : Config) (data : Option JVal) (up : UpOutcome)
    (h : missingMessage data = true) :
    send_telegram cfg data up = (⟨400, jerror "message is required"⟩, false) := by
  match data with
  | none => rfl
  | some d =>
    simp only [missingMessage] at h
    cases ht : pyTruthy d with
    | false => simp [send_telegram, ht]
    | true =>
      rw [ht] at h
      cases hc : pyContainsKey "message" d with
      | error e => rw [hc] at h; simp at h
      | ok b =>
        rw [hc] at h
        simp only [Bool.not_true, Bool.false_or, Bool.not_eq_true'] at h
        subst h
        simp [send_telegram, ht, hc]

lemma send_telegram_creds_missing (cfg : Config) (d : JVal) (up : UpOutcome)
    (h1 : pyTruthy d = true) (h2 : pyContainsKey "message" d = .ok true)
    (h3 : (truthyStr cfg.telegram_bot_token && truthyStr cfg.telegram_chat_id) = false) :
    send_telegram cfg (some d) up = (⟨500, jerror "Telegram credentials not configured"⟩, false) := by
  simp [send_telegram, h1, h2, h3]

/-- C1.  The claim asserts that a 200 upstream payload that is a bare
list of token objects is supported besides the `result`-nested shape.
The code's `data.get('result', data)` signals that intent (the default
argument is only useful when the payload has no `result` key), but a
Python list has no `get` attribute, so the bare-list shape raises
`AttributeError`, is caught by the blanket `except`, and yields a 500
error instead of the filtered token list.  The nested shape works as
claimed; the same payload in both shapes is evaluated here. -/
theorem c1_wallet_tokens_bare_list_crashes :
    get_wallet_tokens cfgFull (some "0x1") (.ok 200 (.arr [tokVerified, tokUnverified])) =
      (⟨500, jerror "AttributeError: list object has no attribute get"⟩, true) ∧
    get_wallet_tokens cfgFull (some "0x1")
        (.ok 200 (.obj [("result", .arr [tokVerified, tokUnverified])])) =
      (⟨200, .obj [("tokens", .arr [tokVerified]), ("address", .str "0x1"),
                   ("total_tokens", .num ((1 : Nat) : Rat))]⟩, true) :=
  ⟨rfl, rfl⟩

/-- C2.  With a non-empty `token_address`, a configured pricing key and
a 200 upstream JSON object whose entry under the lower-cased address
(when present) is itself an object, the handler returns 200 with the
`usd` price looked up under the lower-cased address, defaulting to 0
when the address key or the `usd` entry is absent, and echoes the
address exactly as supplied. -/
theorem c2_token_price_lookup (cfg : Config) (ta : String)
    (entries : List (String × JVal)) (hta : ta ≠ "")
    (hkey : truthyStr cfg.coingecko_api_key = true)
    (hshape : priceShapeOk entries ta = true) :
    get_token_price cfg (some ta) (.ok 200 (.obj entries)) =
      (⟨200, .obj [("price", specPrice entries ta), ("token_address", .str ta)]⟩, true) := by
  have hmain : tokenPriceTry ta (.obj entries) = .ok (specPrice entries ta) := by
    cases hjl : jlookup entries (pyLower ta) with
    | none =>
      simp only [tokenPriceTry, pyGetD, hjl, specPrice, jlookup]
      rfl
    | some v =>
      cases v with
      | obj td =>
        simp only [tokenPriceTry, pyGetD, hjl, specPrice]
        rfl
      | null => simp [priceShapeOk, hjl] at hshape
      | bool b => simp [priceShapeOk, hjl] at hshape
      | num q => simp [priceShapeOk, hjl] at hshape
      | str s => simp [priceShapeOk, hjl] at hshape
      | arr l => simp [priceShapeOk, hjl] at hshape
  simp [get_token_price, hta, hkey, hmain]

/-- Witness for C2, matching the spec's own example: upstream
`{"0xabc": {"usd": 1.23}}`, request `token_address=0xABC`. -/
theorem c2_token_price_lookup_witness :
    get_token_price cfgFull (some "0xABC")
        (.ok 200 (.obj [("0xabc", .obj [("usd", .num (123 / 100))])])) =
      (⟨200, .obj [("price", specPrice [("0xabc", .obj [("usd", .num (123 / 100))])] "0xABC"),
                   ("token_address", .str "0xABC")]⟩, true) :=
  c2_token_price_lookup cfgFull "0xABC" _ (by decide) (by rfl) (by rfl)

/-- C3 counterexample.  A body whose `message` field is the empty
string passes the code's validation (`'message' not in data` does not
test emptiness): with configured credentials and a 200 upstream the
handler answers 200 success and the upstream call is made, where the
claim requires a 400 and no upstream call. -/
theorem c3_empty_message_not_rejected :
    send_telegram cfgFull (some (.obj [("message", .str "")])) (.ok 200 .null) =
      (⟨200, .obj [("success", .bool true), ("message", .str "Message sent successfully")]⟩,
       true) :=
  rfl

/-- C3 as amended: when the body is absent or Python-falsy or does not
contain the `message` key, the handler returns 400 with an `error`
field and no upstream call is made; an empty `message` *value* is not
rejected. -/
theorem c3_missing_message_is_400 (cfg : Config) (data : Option JVal) (up : UpOutcome)
    (h : missingMessage data = true) :
    send_telegram cfg data up = (⟨400, jerror "message is required"⟩, false) :=
  send_telegram_missing_message cfg data up h

/-- Witness for the amended C3 at a body lacking the `message` key. -/
theorem c3_missing_message_is_400_witness :
    send_telegram cfgFull (some (.obj [("text", .str "hi")])) (.ok 200 .null) =
      (⟨400, jerror "message is required"⟩, false) :=
  c3_missing_message_is_400 cfgFull (some (.obj [("text", .str "hi")])) (.ok 200 .null) rfl

/-- C4.  `/api/token-price`: a missing or empty `token_address` gives
400 with an `error` field (and no upstream call); a present address
with an unconfigured pricing key gives a 500-class error with an
`error` field and no upstream call is forwarded. -/
theorem c4_token_price_error_paths (cfg : Config) (p : Option String) (ta : String)
    (up : UpOutcome) :
    (truthyStr p = false →
      get_token_price cfg p up = (⟨400, jerror "token_address parameter is required"⟩, false)) ∧
    (ta ≠ "" → truthyStr cfg.coingecko_api_key = false →
      get_token_price cfg (some ta) up =
        (⟨500, jerror "CoinGecko API key not configured"⟩, false)) :=
  ⟨get_token_price_param_missing cfg p up,
   fun h1 h2 => get_token_price_key_missing cfg ta up h1 h2⟩

/-- Witness for C4: no parameter at all, and a parameter with an
unconfigured key. -/
theorem c4_token_price_error_paths_witness :
    get_token_price cfgNone none (.ok 200 .null) =
      (⟨400, jerror "token_address parameter is required"⟩, false) ∧
    get_token_price cfgNone (some "0xA") (.ok 200 .null) =
      (⟨500, jerror "CoinGecko API key not configured"⟩, false) :=
  ⟨(c4_token_price_error_paths cfgNone none "x" (.ok 200 .null)).1 rfl,
   (c4_token_price_error_paths cfgNone none "0xA" (.ok 200 .null)).2 (by decide) rfl⟩

/-- C5.  On each of the three upstream-calling endpoints, once
validation and configuration checks pass (and, for telegram, the
payload construction succeeds), a non-200 upstream status yields an
HTTP 500 response whose body carries an `error` field and a
`status_code` field equal to the upstream code; the upstream code is
never used as the HTTP status itself. -/
theorem c5_upstream_non200_becomes_500 (code : Nat) (body : JVal) (hcode : code ≠ 200) :
    (∀ cfg ta, ta ≠ "" → truthyStr cfg.coingecko_api_key = true →
      get_token_price cfg (some ta) (.ok code body) =
        (⟨500, .obj [("error", .str "Failed to fetch price"),
                     ("status_code", .num (code : Rat))]⟩, true)) ∧
    (∀ cfg a, a ≠ "" → truthyStr cfg.moralis_api_key = true →
      get_wallet_tokens cfg (some a) (.ok code body) =
        (⟨500, .obj [("error", .str "Failed to fetch wallet tokens"),
                     ("status_code", .num (code : Rat))]⟩, true)) ∧
    (∀ cfg d m, pyTruthy d = true → pyContainsKey "message" d = .ok true →
      pySubscript d "message" = .ok m →
      truthyStr cfg.telegram_bot_token = true → truthyStr cfg.telegram_chat_id = true →
      send_telegram cfg (some d) (.ok code body) =
        (⟨500, .obj [("error", .str "Failed to send message"),
                     ("status_code", .num (code : Rat))]⟩, true)) := by
  refine ⟨?_, ?_, ?_⟩
  · intro cfg ta h1 h2
    simp [get_token_price, h1, h2, hcode]
  · intro cfg a h1 h2
    simp [get_wallet_tokens, h1, h2, hcode]
  · intro cfg d m h1 h2 h3 h4 h5
    simp [send_telegram, h1, h2, h3, h4, h5, hcode]

/-- Witness for C5 at upstream status 404, matching the spec's
messaging-upstream example. -/
theorem c5_upstream_non200_becomes_500_witness :
    get_token_price cfgFull (some "0xA") (.ok 404 .null) =
      (⟨500, .obj [("error", .str "Failed to fetch price"),
                   ("status_code", .num ((404 : Nat) : Rat))]⟩, true) ∧
    get_wallet_tokens cfgFull (some "0xA") (.ok 404 .null) =
      (⟨500, .obj [("error", .str "Failed to fetch wallet tokens"),
                   ("status_code", .num ((404 : Nat) : Rat))]⟩, true) ∧
    send_telegram cfgFull (some (.obj [("message", .str "hi")])) (.ok 404 .null) =
      (⟨500, .obj [("error", .str "Failed to send message"),
                   ("status_code", .num ((404 : Nat) : Rat))]⟩, true) :=
  ⟨(c5_upstream_non200_becomes_500 404 .null (by decide)).1 cfgFull "0xA" (by decide) (by rfl),
   (c5_upstream_non200_becomes_500 404 .null (by decide)).2.1 cfgFull "0xA" (by decide) (by rfl),
   (c5_upstream_non200_becomes_500 404 .null (by decide)).2.2 cfgFull
     (.obj [("message", .str "hi")]) (.str "hi") (by rfl) (by rfl) (by rfl) (by rfl) (by rfl)⟩

/-- C6 counterexample.  Two configurations that agree on the address
values and on which credentials are *set* (both have the Moralis key
set: one to the empty string, one to a real value) still produce
different `/api/config` responses, because the code reports Python
truthiness (`bool(key)`), not set-ness.  So responses are not
determined by set-versus-unset presence alone. -/
theorem c6_presence_agreement_insufficient :
    (cfgFull.moralis_api_key.isSome = cfgEmptyMoralis.moralis_api_key.isSome ∧
     cfgFull.coingecko_api_key.isSome = cfgEmptyMoralis.coingecko_api_key.isSome ∧
     cfgFull.telegram_bot_token.isSome = cfgEmptyMoralis.telegram_bot_token.isSome ∧
     cfgFull.telegram_chat_id.isSome = cfgEmptyMoralis.telegram_chat_id.isSome ∧
     cfgFull.usdt_address = cfgEmptyMoralis.usdt_address ∧
     cfgFull.spender_address = cfgEmptyMoralis.spender_address) ∧
    get_config cfgFull ≠ get_config cfgEmptyMoralis := by
  refine ⟨⟨rfl, rfl, rfl, rfl, rfl, rfl⟩, fun h => ?_⟩
  have h2 : some (JVal.bool true) = some (JVal.bool false) :=
    congrArg (fun r => bodyField r "has_moralis_key") h
  injection h2 with h3
  injection h3 with h4
  exact Bool.noConfusion h4

/-- C6 as amended: the `/api/config` response consists of exactly the
two address fields and the three presence booleans, and it is fully
determined by the address values and the *truthiness* of each
credential (an environment variable set to the empty string counts as
unconfigured), so it reveals nothing else about the secret values. -/
theorem c6_config_reveals_only_presence :
    (∀ cfg, jsonKeys (get_config cfg).body =
      ["usdt_address", "spender_address", "has_moralis_key", "has_coingecko_key",
       "has_telegram_config"]) ∧
    (∀ cfg1 cfg2 : Config,
      truthyStr cfg1.moralis_api_key = truthyStr cfg2.moralis_api_key →
      truthyStr cfg1.coingecko_api_key = truthyStr cfg2.coingecko_api_key →
      truthyStr cfg1.telegram_bot_token = truthyStr cfg2.telegram_bot_token →
      truthyStr cfg1.telegram_chat_id = truthyStr cfg2.telegram_chat_id →
      cfg1.usdt_address = cfg2.usdt_address →
      cfg1.spender_address = cfg2.spender_address →
      get_config cfg1 = get_config cfg2) := by
  refine ⟨fun cfg => rfl, fun cfg1 cfg2 h1 h2 h3 h4 h5 h6 => ?_⟩
  simp [get_config, h1, h2, h3, h4, h5, h6]

/-- Witness for the amended C6: two full configurations with entirely
different secret values give identical responses. -/
theorem c6_config_reveals_only_presence_witness :
    jsonKeys (get_config cfgFull).body =
      ["usdt_address", "spender_address", "has_moralis_key", "has_coingecko_key",
       "has_telegram_config"] ∧
    get_config cfgFull = get_config cfgOther :=
  ⟨c6_config_reveals_only_presence.1 cfgFull,
   c6_config_reveals_only_presence.2 cfgFull cfgOther (by rfl) (by rfl) (by rfl) (by rfl)
     (by rfl) (by rfl)⟩

/-- C7 counterexample.  The JSON number 0 is a present, non-empty JSON
body, yet `if not data` treats it as falsy: the handler answers 400 and
nothing is logged, where the claim requires a success envelope for any
non-empty body. -/
theorem c7_falsy_nonempty_body_rejected :
    webhook (some (.num 0)) = (⟨400, jerror "No data provided"⟩, none) := by rfl

/-- C7 as amended: a body that is absent or Python-falsy (null, false,
0, empty string, empty array, empty object) receives 400 with an
`error` field; any truthy body receives the success envelope and the
payload is logged untransformed. -/
theorem c7_webhook_truthiness_gate (data : Option JVal) :
    (∀ d, data = some d → pyTruthy d = true →
      webhook data = (⟨200, .obj [("success", .bool true),
          ("message", .str "Webhook processed successfully")]⟩, some d)) ∧
    ((data = none ∨ ∃ d, data = some d ∧ pyTruthy d = false) →
      webhook data = (⟨400, jerror "No data provided"⟩, none)) := by
  constructor
  · rintro d rfl h
    simp [webhook, h]
  · rintro (rfl | ⟨d, rfl, h⟩)
    · rfl
    · simp [webhook, h]

/-- Witness for the amended C7: a truthy object body is accepted and
logged as is; an absent body is rejected. -/
theorem c7_webhook_truthiness_gate_witness :
    webhook (some (.obj [("a", .num 1)])) =
      (⟨200, .obj [("success", .bool true),
          ("message", .str "Webhook processed successfully")]⟩,
       some (.obj [("a", .num 1)])) ∧
    webhook none = (⟨400, jerror "No data provided"⟩, none) :=
  ⟨(c7_webhook_truthiness_gate (some (.obj [("a", .num 1)]))).1 _ rfl (by rfl),
   (c7_webhook_truthiness_gate none).2 (Or.inl rfl)⟩

/-- C8.  `/health` always answers 200 with `status` equal to "healthy"
and `timestamp` equal to the current instant's `isoformat()` string
(modelled as the parameter `now`); the handler is a total function, so
it has no failure path. -/
theorem c8_health_always_healthy (now : String) :
    (health_check now).status = 200 ∧
    bodyField (health_check now) "status" = some (.str "healthy") ∧
    bodyField (health_check now) "timestamp" = some (.str now) :=
  ⟨rfl, by rfl, by rfl⟩

/-- C9.  In all three upstream-calling handlers the request-parameter
check precedes the configuration check: a missing/empty parameter gives
400 for every configuration, and the configuration-error 500 response
can only occur when the request parameter is valid. -/
theorem c9_validation_precedes_configuration (cfg : Config) (p : Option String)
    (data : Option JVal) (up : UpOutcome) :
    (truthyStr p = false →
      (get_token_price cfg p up).1.status = 400 ∧
      (get_wallet_tokens cfg p up).1.status = 400) ∧
    (missingMessage data = true → (send_telegram cfg data up).1.status = 400) ∧
    (get_token_price cfg p up = (⟨500, jerror "CoinGecko API key not configured"⟩, false) →
      truthyStr p = true) ∧
    (get_wallet_tokens cfg p up = (⟨500, jerror "Moralis API key not configured"⟩, false) →
      truthyStr p = true) ∧
    (send_telegram cfg data up = (⟨500, jerror "Telegram credentials not configured"⟩, false) →
      missingMessage data = false) := by
  refine ⟨fun h => ⟨?_, ?_⟩, fun h => ?_, fun h => ?_, fun h => ?_, fun h => ?_⟩
  · rw [get_token_price_param_missing cfg p up h]
  · rw [get_wallet_tokens_param_missing cfg p up h]
  · rw [send_telegram_missing_message cfg data up h]
  · by_contra hb
    have hb2 : truthyStr p = false := by simpa using hb
    rw [get_token_price_param_missing cfg p up hb2] at h
    have h4 := congrArg (fun r => r.1.status) h
    simp at h4
  · by_contra hb
    have hb2 : truthyStr p = false := by simpa using hb
    rw [get_wallet_tokens_param_missing cfg p up hb2] at h
    have h4 := congrArg (fun r => r.1.status) h
    simp at h4
  · by_contra hb
    have hb2 : missingMessage data = true := by simpa using hb
    rw [send_telegram_missing_message cfg data up hb2] at h
    have h4 := congrArg (fun r => r.1.status) h
    simp at h4

/-- Witness for C9: with nothing configured, missing parameters give
400 on all three endpoints; and a valid parameter is recovered from a
configuration-error response. -/
theorem c9_validation_precedes_configuration_witness :
    ((get_token_price cfgNone none (.ok 200 .null)).1.status = 400 ∧
     (get_wallet_tokens cfgNone none (.ok 200 .null)).1.status = 400) ∧
    (send_telegram cfgNone none (.ok 200 .null)).1.status = 400 ∧
    truthyStr (some "0xA") = true :=
  ⟨(c9_validation_precedes_configuration cfgNone none none (.ok 200 .null)).1 rfl,
   (c9_validation_precedes_configuration cfgNone none none (.ok 200 .null)).2.1 rfl,
   (c9_validation_precedes_configuration cfgNone (some "0xA") none (.ok 200 .null)).2.2.1
     (by rfl)⟩

/-- C10.  Every accepted `/webhook` request (a body the code treats as
non-empty) gets the one fixed success body, so any two accepted
payloads produce identical responses and the response reveals nothing
about the payload. -/
theorem c10_webhook_response_constant :
    (∀ d, pyTruthy d = true →
      (webhook (some d)).1 =
        ⟨200, .obj [("success", .bool true),
                    ("message", .str "Webhook processed successfully")]⟩) ∧
    (∀ d1 d2, pyTruthy d1 = true → pyTruthy d2 = true →
      (webhook (some d1)).1 = (webhook (some d2)).1) := by
  have hconst : ∀ d, pyTruthy d = true →
      (webhook (some d)).1 =
        ⟨200, .obj [("success", .bool true),
                    ("message", .str "Webhook processed successfully")]⟩ := by
    intro d h
    simp [webhook, h]
  exact ⟨hconst, fun d1 d2 h1 h2 => (hconst d1 h1).trans (hconst d2 h2).symm⟩

/-- Witness for C10 at two distinct accepted payloads. -/
theorem c10_webhook_response_constant_witness :
    (webhook (some (.obj [("a", .num 1)]))).1 =
      ⟨200, .obj [("success", .bool true),
                  ("message", .str "Webhook processed successfully")]⟩ ∧
    (webhook (some (.obj [("a", .num 1)]))).1 = (webhook (some (.arr [.str "x"]))).1 :=
  ⟨c10_webhook_response_constant.1 _ (by rfl),
   c10_webhook_response_constant.2 _ _ (by rfl) (by rfl)⟩

end Backend
